import Mathlib

/-!
Verification of the per-connection session core of the `uchiumih/ldap` server
(`handler_holding_binddn.go`): a shallow embedding of the session loop
`handleConnectionAndSendBindDn`, the predicate evaluator `judgeBindDnIsEmpty`,
and the bind forwarder `makeBindDnRequest` / `sendBindDnRequest`, together with
theorems about the forwarding, dispatch and termination behaviour.
-/

set_option maxHeartbeats 1000000

namespace LdapSrv

/-- BER tag class (`ber.ClassUniversal` = 0x00, `ber.ClassApplication` = 0x40,
`ber.ClassContext` = 0x80, `ber.ClassPrivate` = 0xC0); the class byte is always
one of these four because it is extracted with the 0xC0 bitmask. -/
inductive BerClass where
  | universal
  | application
  | context
  | priv
deriving DecidableEq, Repr

/-- BER type bit (`ber.TypePrimative` = 0x00, `ber.TypeConstructed` = 0x20). -/
inductive BerType where
  | primitive
  | constructed
deriving DecidableEq, Repr

/-- The dynamic `Value interface{}` field of a `ber.Packet`.  The codec stores
universal integers as Go `uint64` (`uint`), `ber.NewInteger` keeps whatever
integer type it was handed (an untyped constant becomes Go `int`, hence `int`),
strings as `string`, booleans as `bool`; `null` stands for a nil value. -/
inductive BerValue where
  | null
  | uint (n : Nat)
  | int (n : Int)
  | str (s : String)
  | boolv (b : Bool)
deriving DecidableEq, Repr

mutual
/-- A `ber.Packet`: class, type, tag, dynamic value, length of the primitive
content buffer (`Data.Len()`), and the ordered list of children. -/
inductive Packet where
  | mk (classType : BerClass) (tagType : BerType) (tag : Nat) (value : BerValue)
      (dataLen : Nat) (children : PacketList)

/-- The ordered `Children` list of a `ber.Packet`. -/
inductive PacketList where
  | nil
  | cons (head : Packet) (tail : PacketList)
end

def Packet.classType : Packet → BerClass
  | .mk c _ _ _ _ _ => c

def Packet.tagType : Packet → BerType
  | .mk _ t _ _ _ _ => t

def Packet.tag : Packet → Nat
  | .mk _ _ tg _ _ _ => tg

def Packet.value : Packet → BerValue
  | .mk _ _ _ v _ _ => v

def Packet.dataLen : Packet → Nat
  | .mk _ _ _ _ d _ => d

def Packet.children : Packet → PacketList
  | .mk _ _ _ _ _ ch => ch

def PacketList.length : PacketList → Nat
  | .nil => 0
  | .cons _ t => t.length + 1

/-- `Children[i]`, with a default for the out-of-range case (every use in the
embedding is guarded by a length check mirroring the Go code, or indexes a
packet just constructed with enough children). -/
def PacketList.getD : PacketList → Nat → Packet → Packet
  | .nil, _, d => d
  | .cons h _, 0, _ => h
  | .cons _ t, n + 1, d => t.getD n d

def PacketList.ofList : List Packet → PacketList
  | [] => .nil
  | p :: ps => .cons p (PacketList.ofList ps)

def PacketList.toList : PacketList → List Packet
  | .nil => []
  | .cons h t => h :: t.toList

def defaultPacket : Packet :=
  Packet.mk .universal .primitive 0 .null 0 .nil

/-- `ber.ClassMap`. -/
def ClassMap : BerClass → String
  | .universal => "Universal"
  | .application => "Application"
  | .context => "Context"
  | .priv => "Private"

/-- `ber.TypeMap` (the library spells it "Primative"). -/
def TypeMap : BerType → String
  | .primitive => "Primative"
  | .constructed => "Constructed"

/-- `ber.TagMap`: universal tag number to name; a missing key yields the Go
zero value `""`. -/
def TagMap : Nat → String
  | 0 => "EOC (End-of-Content)"
  | 1 => "Boolean"
  | 2 => "Integer"
  | 3 => "Bit String"
  | 4 => "Octet String"
  | 5 => "NULL"
  | 6 => "Object Identifier"
  | 7 => "Object Descriptor"
  | 8 => "External"
  | 9 => "Real (float)"
  | 10 => "Enumerated"
  | 11 => "Embedded PDV"
  | 12 => "UTF8 String"
  | 13 => "Relative-OID"
  | 16 => "Sequence and Sequence of"
  | 17 => "Set and Set of"
  | 18 => "Numeric String"
  | 19 => "Printable String"
  | 20 => "T61 String"
  | 21 => "Videotex String"
  | 22 => "IA5 String"
  | 23 => "UTC Time"
  | 24 => "Generalized Time"
  | 25 => "Graphic String"
  | 26 => "Visible String"
  | 27 => "General String"
  | 28 => "Universal String"
  | 29 => "Character String"
  | 30 => "BMP String"
  | _ => ""

def hexDigitChar (n : Nat) : Char :=
  if n < 10 then Char.ofNat (48 + n) else Char.ofNat (55 + n)

def hexDigitsAux : Nat → Nat → List Char
  | 0, _ => []
  | fuel + 1, n => if n = 0 then [] else hexDigitsAux fuel (n / 16) ++ [hexDigitChar (n % 16)]

/-- `fmt.Sprintf("0x%02X", tag)`: uppercase hexadecimal, zero-padded to at
least two digits, with a `0x` prefix. -/
def sprintfHex02 (n : Nat) : String :=
  let ds := hexDigitsAux n n
  let ds := if ds.length = 0 then ['0', '0'] else if ds.length = 1 then '0' :: ds else ds
  String.mk ('0' :: 'x' :: ds)

/-- LDAP application codes used by the session loop (constants of the
repository's `ldap` package, RFC 4511 protocol op tags). -/
def ApplicationBindRequest : Nat := 0

def ApplicationBindResponse : Nat := 1

def ApplicationUnbindRequest : Nat := 2

def ApplicationSearchRequest : Nat := 3

def ApplicationSearchResultDone : Nat := 5

def ApplicationModifyRequest : Nat := 6

def ApplicationModifyResponse : Nat := 7

def ApplicationAddRequest : Nat := 8

def ApplicationAddResponse : Nat := 9

def ApplicationDelRequest : Nat := 10

def ApplicationDelResponse : Nat := 11

def ApplicationModifyDNRequest : Nat := 12

def ApplicationModifyDNResponse : Nat := 13

def ApplicationCompareRequest : Nat := 14

def ApplicationCompareResponse : Nat := 15

def ApplicationAbandonRequest : Nat := 16

def ApplicationExtendedRequest : Nat := 23

def ApplicationExtendedResponse : Nat := 24

def TagInteger : Nat := 2

def TagOctetString : Nat := 4

def TagSequence : Nat := 16

/-- LDAP result codes used by the session loop. -/
def LDAPResultSuccess : Nat := 0

def LDAPResultOperationsError : Nat := 1

mutual
/-- `judgeBindDnIsEmpty(p *ber.Packet, result *bool)`: sets `*result` to true
if the node is a primitive universal octet string with empty content, then
recurses over the children, threading the boolean through.  The Lean version
returns the final value of `*result`. -/
def judgeBindDnIsEmpty : Packet → Bool → Bool
  | Packet.mk c t tg _ dlen ch, result =>
    let class_ := ClassMap c
    let tagtype := TypeMap t
    let tagStr := if c = BerClass.universal then TagMap tg else sprintfHex02 tg
    let result1 :=
      if class_ == "Universal" && tagtype == "Primative" && tagStr == "Octet String"
          && dlen == 0 then
        true
      else result
    judgeChildren ch result1

/-- The `for _, child := range p.Children` loop of `judgeBindDnIsEmpty`. -/
def judgeChildren : PacketList → Bool → Bool
  | .nil, result => result
  | .cons c cs, result => judgeChildren cs (judgeBindDnIsEmpty c result)
end

/-- The clean specification predicate for one node: universal class, primitive
type, octet-string tag, zero-length content. -/
def isEmptyOctetString (p : Packet) : Bool :=
  p.classType == BerClass.universal && p.tagType == BerType.primitive
    && p.tag == TagOctetString && p.dataLen == 0

mutual
/-- All nodes of the tree, root included, in depth-first order. -/
def Packet.nodes : Packet → List Packet
  | Packet.mk c t tg v d ch => Packet.mk c t tg v d ch :: nodesList ch

def nodesList : PacketList → List Packet
  | .nil => []
  | .cons h t => h.nodes ++ nodesList t
end

/-- The response envelopes the session loop sends, abstracted at the calls of
the (external) encoders `encodeLDAPResponse(messageID, responseType, code,
text)`, `encodeBindResponse(messageID, code)` and
`encodeSearchDone(messageID, code)`. -/
inductive Response where
  | ldapResponse (messageID : Nat) (responseType : Nat) (code : Nat) (text : String)
  | bindResponse (messageID : Nat) (code : Nat)
  | searchDone (messageID : Nat) (code : Nat)
deriving DecidableEq, Repr

/-- The observable interactions of one session with its collaborators:
handler-chain invocations (`HandleBindRequest` tagged with whether the request
is the synthetic bind-dn one, `HandleSearchRequest`, ...), `sendPacket`
attempts, the close-collaborator fan-out and `conn.Close()`. -/
inductive Event where
  | bindChainCall (synthetic : Bool) (req : Packet)
  | searchChainCall (req : Packet) (controls : List Packet) (messageID : Nat) (dn : String)
  | extendedChainCall (req : Packet) (dn : String)
  | abandonChainCall (req : Packet) (dn : String)
  | addChainCall (req : Packet) (dn : String)
  | modifyChainCall (req : Packet) (dn : String)
  | deleteChainCall (req : Packet) (dn : String)
  | modifyDNChainCall (req : Packet) (dn : String)
  | compareChainCall (req : Packet) (dn : String)
  | sendAttempt (r : Response)
  | closeCall (dn : String)
  | connClose

/-- Per-connection session state: `boundDN` (empty = anonymous) and
`isSentBindDn` (whether the bind-dn request has been sent). -/
structure ConnState where
  boundDN : String
  isSentBindDn : Bool
deriving DecidableEq, Repr

/-- The external collaborators, as oracles: the handler-chain result codes for
each operation kind (`server.BindFns` etc.), whether a `sendPacket` call
succeeds, and the configured service credentials `ldaplib.BindDn` /
`ldaplib.BindPass`.  `handleSearch` returns `none` for a nil error and
`some code` for an `*Error` with that result code. -/
structure Env where
  handleBind : Packet → Nat
  handleSearch : Packet → List Packet → Nat → String → Option Nat
  handleExtended : Packet → String → Nat
  handleAdd : Packet → String → Nat
  handleModify : Packet → String → Nat
  handleDelete : Packet → String → Nat
  handleModifyDN : Packet → String → Nat
  handleCompare : Packet → String → Nat
  sendOk : Response → Bool
  bindDn : String
  bindPass : String

/-- Modelled from the spec: the repository's result-code → result-text map
(`LDAPResultCodeMap`, a package constant not under `src/`); the spec only says
generic responses carry "mapped result text", and no claim depends on the
text, so the map's exact contents are immaterial. -/
def LDAPResultCodeMap (code : Nat) : String :=
  if code = LDAPResultSuccess then "Success" else "LDAP Result Code " ++ toString code

/-- `makeBindDnRequest(username, password string) *ber.Packet`: the synthetic
bind request envelope — a sequence holding the messageID 0 integer (a Go
`uint64`) and the bind request node with version 3 (an untyped Go constant,
hence `int`), the username as a universal octet string and the password as a
context-class tag-0 string.  A string leaf's `Data` buffer holds the string
bytes; an integer leaf's buffer length is irrelevant to every theorem and is
modelled as 1. -/
def makeBindDnRequest (username password : String) : Packet :=
  Packet.mk .universal .constructed TagSequence .null 0 (PacketList.ofList
    [ Packet.mk .universal .primitive TagInteger (.uint 0) 1 .nil,
      Packet.mk .application .constructed ApplicationBindRequest .null 0 (PacketList.ofList
        [ Packet.mk .universal .primitive TagInteger (.int 3) 1 .nil,
          Packet.mk .universal .primitive TagOctetString (.str username) username.length .nil,
          Packet.mk .context .primitive 0 (.str password) password.length .nil ]) ])

/-- `(server *Server) sendBindDnRequest(conn net.Conn, boundDN *string) bool`:
submit the synthetic bind to the bind chain, capture the DN on success, send
the bind response, and return (final value of `*boundDN`, returned bool,
emitted events).  The Go `result` variable starts at its zero value `false`
and is only set `true` by the string assertion under a success result code, so
a non-success synthetic bind returns `false` even when the response send
succeeds; a send failure forces `false`.  The Go type assertions on
`Children[0].Value.(uint64)` and `Children[1].Value.(string)` always succeed
by construction of the packet, so the fallback arms are unreachable. -/
def sendBindDnRequest (env : Env) (boundDN : String) : String × Bool × List Event :=
  let bindDnPacket := makeBindDnRequest env.bindDn env.bindPass
  let bindDnReq := bindDnPacket.children.getD 1 defaultPacket
  let ldapResultCode := env.handleBind bindDnReq
  let dnresult :=
    if ldapResultCode = LDAPResultSuccess then
      match (bindDnReq.children.getD 1 defaultPacket).value with
      | BerValue.str s => (s, true)
      | _ => ("", false)
    else (boundDN, false)
  let messageID :=
    match (bindDnPacket.children.getD 0 defaultPacket).value with
    | BerValue.uint n => n
    | _ => 0
  let resp := Response.bindResponse messageID ldapResultCode
  let result := if env.sendOk resp then dnresult.2 else false
  (dnresult.1, result, [Event.bindChainCall true bindDnReq, Event.sendAttempt resp])

/-- The tail of the `ApplicationBindRequest` case after the DN capture: encode
and send the bind response (break on send failure), then run the
empty-credential predicate on the whole envelope and, when it holds, forward;
a failed forwarding attempt breaks the loop without setting `isSentBindDn`. -/
def bindRespondAndMaybeForward (env : Env) (st : ConnState) (packet : Packet)
    (messageID ldapResultCode : Nat) : ConnState × List Event × Bool :=
  let resp := Response.bindResponse messageID ldapResultCode
  if env.sendOk resp then
    if judgeBindDnIsEmpty packet false then
      let fwd := sendBindDnRequest env st.boundDN
      if fwd.2.1 then
        ({ boundDN := fwd.1, isSentBindDn := true }, Event.sendAttempt resp :: fwd.2.2, true)
      else
        ({ st with boundDN := fwd.1 }, Event.sendAttempt resp :: fwd.2.2, false)
    else (st, [Event.sendAttempt resp], true)
  else (st, [Event.sendAttempt resp], false)

/-- The `ApplicationBindRequest` case.  Go's two-valued type assertion
`boundDN, ok = req.Children[1].Value.(string)` writes the zero value `""` into
`boundDN` when the assertion fails and then breaks the loop (an out-of-range
`Children[1]`, which would panic in Go, is modelled as the same break). -/
def processBind (env : Env) (st : ConnState) (packet req : Packet) (messageID : Nat) :
    ConnState × List Event × Bool :=
  let ldapResultCode := env.handleBind req
  let ev0 := Event.bindChainCall false req
  if ldapResultCode = LDAPResultSuccess then
    match (req.children.getD 1 defaultPacket).value with
    | BerValue.str s =>
      let r := bindRespondAndMaybeForward env { st with boundDN := s } packet messageID
        ldapResultCode
      (r.1, ev0 :: r.2.1, r.2.2)
    | _ => ({ st with boundDN := "" }, [ev0], false)
  else
    let r := bindRespondAndMaybeForward env st packet messageID ldapResultCode
    (r.1, ev0 :: r.2.1, r.2.2)

/-- The `ApplicationSearchRequest` case: when the bind-dn request has not been
sent yet, forward first (break on failure); then run the search chain and send
the search-done response.  A handler error sends the search-done with the
handler's code and breaks regardless of the send outcome. -/
def processSearch (env : Env) (st : ConnState) (req : Packet) (controls : List Packet)
    (messageID : Nat) : ConnState × List Event × Bool :=
  let pre : ConnState × List Event × Bool :=
    if st.isSentBindDn then (st, [], true)
    else
      let fwd := sendBindDnRequest env st.boundDN
      if fwd.2.1 then ({ boundDN := fwd.1, isSentBindDn := true }, fwd.2.2, true)
      else ({ st with boundDN := fwd.1 }, fwd.2.2, false)
  if pre.2.2 then
    let st1 := pre.1
    let ev := Event.searchChainCall req controls messageID st1.boundDN
    match env.handleSearch req controls messageID st1.boundDN with
    | some code =>
      (st1, pre.2.1 ++ [ev, Event.sendAttempt (Response.searchDone messageID code)], false)
    | none =>
      let resp := Response.searchDone messageID LDAPResultSuccess
      (st1, pre.2.1 ++ [ev, Event.sendAttempt resp], env.sendOk resp)
  else pre

/-- The shared shape of the extended/add/modify/delete/modify-DN/compare
cases: run the chain, send an `encodeLDAPResponse` with the mapped result
text, continue unless the send fails. -/
def processGeneric (env : Env) (st : ConnState) (chainEv : Event) (ldapResultCode : Nat)
    (responseType messageID : Nat) : ConnState × List Event × Bool :=
  let resp := Response.ldapResponse messageID responseType ldapResultCode
    (LDAPResultCodeMap ldapResultCode)
  (st, [chainEv, Event.sendAttempt resp], env.sendOk resp)

/-- One iteration of the `handler:` loop on an already-read envelope: sanity
checks, control collection and operation dispatch.  Returns (new session
state, events emitted, whether the loop continues); `false` models
`break handler`.  `DecodeControl` is external, so the control list is modelled
as the raw third child's children (spec §3: the core only collects the raw
list and passes it through). -/
def processPacket (env : Env) (st : ConnState) (packet : Packet) :
    ConnState × List Event × Bool :=
  if packet.children.length < 2 then (st, [], false)
  else
    match (packet.children.getD 0 defaultPacket).value with
    | BerValue.uint messageID =>
      let req := packet.children.getD 1 defaultPacket
      if req.classType = BerClass.application then
        let controls :=
          if 2 < packet.children.length then (packet.children.getD 2 defaultPacket).children.toList
          else []
        if req.tag = ApplicationBindRequest then
          processBind env st packet req messageID
        else if req.tag = ApplicationSearchRequest then
          processSearch env st req controls messageID
        else if req.tag = ApplicationUnbindRequest then
          (st, [], false)
        else if req.tag = ApplicationExtendedRequest then
          processGeneric env st (Event.extendedChainCall req st.boundDN)
            (env.handleExtended req st.boundDN) ApplicationExtendedResponse messageID
        else if req.tag = ApplicationAbandonRequest then
          (st, [Event.abandonChainCall req st.boundDN], false)
        else if req.tag = ApplicationAddRequest then
          processGeneric env st (Event.addChainCall req st.boundDN)
            (env.handleAdd req st.boundDN) ApplicationAddResponse messageID
        else if req.tag = ApplicationModifyRequest then
          processGeneric env st (Event.modifyChainCall req st.boundDN)
            (env.handleModify req st.boundDN) ApplicationModifyResponse messageID
        else if req.tag = ApplicationDelRequest then
          processGeneric env st (Event.deleteChainCall req st.boundDN)
            (env.handleDelete req st.boundDN) ApplicationDelResponse messageID
        else if req.tag = ApplicationModifyDNRequest then
          processGeneric env st (Event.modifyDNChainCall req st.boundDN)
            (env.handleModifyDN req st.boundDN) ApplicationModifyDNResponse messageID
        else if req.tag = ApplicationCompareRequest then
          processGeneric env st (Event.compareChainCall req st.boundDN)
            (env.handleCompare req st.boundDN) ApplicationCompareResponse messageID
        else
          (st, [Event.sendAttempt (Response.ldapResponse messageID ApplicationAddResponse
            LDAPResultOperationsError "Unsupported operation: add")], false)
      else (st, [], false)
    | _ => (st, [], false)

/-- The `handler:` loop over the stream of successfully-decoded envelopes; the
end of the input list models `io.EOF` (a read error breaks the loop the same
way). -/
def runLoop (env : Env) (st : ConnState) : List Packet → ConnState × List Event
  | [] => (st, [])
  | p :: rest =>
    let r := processPacket env st p
    if r.2.2 then
      let r2 := runLoop env r.1 rest
      (r2.1, r.2.1 ++ r2.2)
    else (r.1, r.2.1)

/-- `handleConnectionAndSendBindDn`: run the loop from the anonymous state,
then invoke the close collaborators (the single `closeCall` event stands for
the `for _, c := range server.CloseFns { c.Close(boundDN, conn) }` fan-out,
every collaborator receiving the same final bound DN and the connection
handle) and close the connection. -/
def handleConnectionAndSendBindDn (env : Env) (input : List Packet) : List Event :=
  let r := runLoop env { boundDN := "", isSentBindDn := false } input
  r.2 ++ [Event.closeCall r.1.boundDN, Event.connClose]

def Event.isSyntheticBind : Event → Bool
  | .bindChainCall true _ => true
  | _ => false

def Event.isSend : Event → Bool
  | .sendAttempt _ => true
  | _ => false

def Event.isClose : Event → Bool
  | .closeCall _ => true
  | _ => false

/-- Number of synthetic bind chain calls (the Bind Forwarder's
`HandleBindRequest` invocations) in a trace. -/
def countSyntheticBinds (evs : List Event) : Nat :=
  evs.countP (fun e => e.isSyntheticBind)

def countCloseCalls (evs : List Event) : Nat :=
  evs.countP (fun e => e.isClose)

def isUintValue : BerValue → Bool
  | .uint _ => true
  | _ => false

/-- The request node `packet.Children[1]`. -/
def reqOf (p : Packet) : Packet :=
  p.children.getD 1 defaultPacket

/-- The operation tag the dispatch switches on. -/
def tagOf (p : Packet) : Nat :=
  (reqOf p).tag

/-- The sanity checks at the head of the loop body: at least two children, a
`uint64` message ID, and an application-class request node. -/
def validEnvelope (p : Packet) : Bool :=
  decide (2 ≤ p.children.length) && isUintValue (p.children.getD 0 defaultPacket).value
    && ((reqOf p).classType == BerClass.application)

/-- The message ID extracted by the `packet.Children[0].Value.(uint64)`
assertion; only used where the assertion is known to succeed. -/
def midOf (p : Packet) : Nat :=
  match (p.children.getD 0 defaultPacket).value with
  | BerValue.uint n => n
  | _ => 0

/-- The control list collected from the optional third child. -/
def controlsOf (p : Packet) : List Packet :=
  if 2 < p.children.length then (p.children.getD 2 defaultPacket).children.toList else []

/-- The operation dispatch switch of the loop body, split out of
`processPacket` for case-by-case reasoning; `processPacket` on a valid
envelope equals `dispatch` (theorem `processPacket_eq`). -/
def dispatch (env : Env) (st : ConnState) (packet : Packet) : ConnState × List Event × Bool :=
  let req := reqOf packet
  let messageID := midOf packet
  let controls := controlsOf packet
  if req.tag = ApplicationBindRequest then
    processBind env st packet req messageID
  else if req.tag = ApplicationSearchRequest then
    processSearch env st req controls messageID
  else if req.tag = ApplicationUnbindRequest then
    (st, [], false)
  else if req.tag = ApplicationExtendedRequest then
    processGeneric env st (Event.extendedChainCall req st.boundDN)
      (env.handleExtended req st.boundDN) ApplicationExtendedResponse messageID
  else if req.tag = ApplicationAbandonRequest then
    (st, [Event.abandonChainCall req st.boundDN], false)
  else if req.tag = ApplicationAddRequest then
    processGeneric env st (Event.addChainCall req st.boundDN)
      (env.handleAdd req st.boundDN) ApplicationAddResponse messageID
  else if req.tag = ApplicationModifyRequest then
    processGeneric env st (Event.modifyChainCall req st.boundDN)
      (env.handleModify req st.boundDN) ApplicationModifyResponse messageID
  else if req.tag = ApplicationDelRequest then
    processGeneric env st (Event.deleteChainCall req st.boundDN)
      (env.handleDelete req st.boundDN) ApplicationDelResponse messageID
  else if req.tag = ApplicationModifyDNRequest then
    processGeneric env st (Event.modifyDNChainCall req st.boundDN)
      (env.handleModifyDN req st.boundDN) ApplicationModifyDNResponse messageID
  else if req.tag = ApplicationCompareRequest then
    processGeneric env st (Event.compareChainCall req st.boundDN)
      (env.handleCompare req st.boundDN) ApplicationCompareResponse messageID
  else
    (st, [Event.sendAttempt (Response.ldapResponse messageID ApplicationAddResponse
      LDAPResultOperationsError "Unsupported operation: add")], false)

def isStrValue : BerValue → Bool
  | .str _ => true
  | _ => false

/-- The synthetic bind request node `bindDnPacket.Children[1]` submitted by the
Bind Forwarder. -/
def synBindReq (env : Env) : Packet :=
  (makeBindDnRequest env.bindDn env.bindPass).children.getD 1 defaultPacket

/-- Whether a forwarding attempt by the Bind Forwarder succeeds, i.e. the
boolean `sendBindDnRequest` returns: the synthetic bind chain answers success
and the synthetic bind response send succeeds.  The returned boolean does not
depend on the bound DN at the time of the attempt (theorem
`sendBindDn_result_eq`). -/
def forwardAttemptSucceeds (env : Env) : Bool :=
  decide (env.handleBind (synBindReq env) = LDAPResultSuccess)
    && env.sendOk (Response.bindResponse 0 (env.handleBind (synBindReq env)))

/-- The operation tags the switch recognizes; anything else hits `default`. -/
def recognizedTags : List Nat :=
  [ApplicationBindRequest, ApplicationSearchRequest, ApplicationUnbindRequest,
   ApplicationExtendedRequest, ApplicationAbandonRequest, ApplicationAddRequest,
   ApplicationModifyRequest, ApplicationDelRequest, ApplicationModifyDNRequest,
   ApplicationCompareRequest]

/-- No message of the input carries the bind operation tag. -/
def noBindInput (input : List Packet) : Bool :=
  input.all (fun q => !(tagOf q == ApplicationBindRequest))

/-- Concrete fixtures for counterexamples and witnesses. -/
def intNode (n : Nat) : Packet :=
  Packet.mk .universal .primitive TagInteger (.uint n) 1 .nil

def strNode (s : String) : Packet :=
  Packet.mk .universal .primitive TagOctetString (.str s) s.length .nil

/-- A wire bind envelope: [messageID, bind request [version, dn, password]],
both dn and password carried as universal octet strings as the codec parses
them. -/
def bindEnvPkt (mid : Nat) (dn pw : String) : Packet :=
  Packet.mk .universal .constructed TagSequence .null 0 (PacketList.ofList
    [ intNode mid,
      Packet.mk .application .constructed ApplicationBindRequest .null 0 (PacketList.ofList
        [ intNode 3, strNode dn, strNode pw ]) ])

/-- A wire search envelope (the search chain is an oracle, so no body is
needed). -/
def searchEnvPkt (mid : Nat) : Packet :=
  Packet.mk .universal .constructed TagSequence .null 0 (PacketList.ofList
    [ intNode mid, Packet.mk .application .constructed ApplicationSearchRequest .null 0 .nil ])

/-- A wire envelope with an arbitrary operation tag and no body. -/
def opEnvPkt (mid tag : Nat) : Packet :=
  Packet.mk .universal .constructed TagSequence .null 0 (PacketList.ofList
    [ intNode mid, Packet.mk .application .constructed tag .null 0 .nil ])

/-- A wire envelope with fewer than two children, violating the sanity
checks. -/
def shortEnvPkt : Packet :=
  Packet.mk .universal .constructed TagSequence .null 0 (PacketList.ofList [intNode 1])

/-- An environment where every chain reports success and every send succeeds. -/
def envAllOk : Env :=
  { handleBind := fun _ => LDAPResultSuccess, handleSearch := fun _ _ _ _ => none,
    handleExtended := fun _ _ => LDAPResultSuccess, handleAdd := fun _ _ => LDAPResultSuccess,
    handleModify := fun _ _ => LDAPResultSuccess, handleDelete := fun _ _ => LDAPResultSuccess,
    handleModifyDN := fun _ _ => LDAPResultSuccess, handleCompare := fun _ _ => LDAPResultSuccess,
    sendOk := fun _ => true, bindDn := "cn=svc", bindPass := "pw" }

/-- As `envAllOk` but the bind chain reports invalidCredentials (49) for every
bind. -/
def envBindFail : Env :=
  { envAllOk with handleBind := fun _ => 49 }

/-- As `envAllOk` but the bind chain reports 49 exactly for the synthetic
bind-dn request (recognized by its DN field `cn=svc`). -/
def envSynFail : Env :=
  { envAllOk with handleBind := fun req =>
      if (req.children.getD 1 defaultPacket).value == BerValue.str "cn=svc" then 49
      else LDAPResultSuccess }


theorem tagMap_octet (tg : Nat) : TagMap tg = "Octet String" ↔ tg = 4 := by
  constructor
  · intro h
    unfold TagMap at h
    split at h <;> first | rfl | (exact absurd h (by decide))
  · rintro rfl
    rfl

theorem judge_head_cond (c : BerClass) (t : BerType) (tg : Nat) (v : BerValue)
    (dlen : Nat) (ch : PacketList) :
    ((ClassMap c == "Universal") && (TypeMap t == "Primative")
      && ((if c = BerClass.universal then TagMap tg else sprintfHex02 tg) == "Octet String")
      && (dlen == 0))
    = isEmptyOctetString (Packet.mk c t tg v dlen ch) := by
  apply Bool.eq_iff_iff.mpr
  simp only [Bool.and_eq_true, beq_iff_eq, isEmptyOctetString, Packet.classType,
    Packet.tagType, Packet.tag, Packet.dataLen, TagOctetString]
  cases c <;> cases t <;> simp [ClassMap, TypeMap, tagMap_octet]

theorem judge_spec_node (p : Packet) : ∀ r : Bool,
    judgeBindDnIsEmpty p r = (r || p.nodes.any isEmptyOctetString) :=
  Packet.rec
    (motive_1 := fun p => ∀ r, judgeBindDnIsEmpty p r = (r || p.nodes.any isEmptyOctetString))
    (motive_2 := fun l => ∀ r, judgeChildren l r = (r || (nodesList l).any isEmptyOctetString))
    (fun c t tg v d ch ih r => by
      simp only [judgeBindDnIsEmpty]
      rw [ih]
      rw [judge_head_cond c t tg v d ch]
      cases hEmpty : isEmptyOctetString (Packet.mk c t tg v d ch) <;>
        simp [hEmpty, Packet.nodes, Bool.or_assoc, Bool.or_comm, Bool.or_left_comm])
    (fun r => by simp [judgeChildren, nodesList])
    (fun h tl ih1 ih2 r => by
      simp only [judgeChildren]
      rw [ih2, ih1]
      simp [nodesList, List.any_append, Bool.or_assoc])
    p

/-- C4: the predicate evaluator, started from its caller's initial `false`,
returns true exactly when some node anywhere in the tree is a primitive
universal octet string with zero-length content; with no such node it stays
false. -/
theorem judgeBindDnIsEmpty_correct (p : Packet) :
    judgeBindDnIsEmpty p false = true ↔ ∃ q ∈ p.nodes, isEmptyOctetString q = true := by
  rw [judge_spec_node]
  simp [List.any_eq_true]

theorem processPacket_eq (env : Env) (st : ConnState) (p : Packet) :
    processPacket env st p =
      if validEnvelope p = true then dispatch env st p else (st, [], false) := by
  unfold processPacket dispatch validEnvelope reqOf midOf controlsOf
  by_cases h1 : p.children.length < 2
  · have h2 : ¬ (2 ≤ p.children.length) := by omega
    simp [h1, h2]
  · rw [if_neg h1]
    have h2 : (2 ≤ p.children.length) := by omega
    rcases hval : (p.children.getD 0 defaultPacket).value with _ | m | i | s | b <;>
      simp [hval, isUintValue, h2]

theorem dispatch_tag_bind (env : Env) (st : ConnState) (p : Packet)
    (ht : tagOf p = ApplicationBindRequest) :
    dispatch env st p = processBind env st p (reqOf p) (midOf p) := by
  unfold tagOf at ht
  unfold dispatch
  simp [ht, ApplicationBindRequest]

theorem dispatch_tag_search (env : Env) (st : ConnState) (p : Packet)
    (ht : tagOf p = ApplicationSearchRequest) :
    dispatch env st p = processSearch env st (reqOf p) (controlsOf p) (midOf p) := by
  unfold tagOf at ht
  unfold dispatch
  simp [ht, ApplicationBindRequest, ApplicationSearchRequest]

theorem dispatch_tag_unbind (env : Env) (st : ConnState) (p : Packet)
    (ht : tagOf p = ApplicationUnbindRequest) :
    dispatch env st p = (st, [], false) := by
  unfold tagOf at ht
  unfold dispatch
  simp [ht, ApplicationBindRequest, ApplicationSearchRequest, ApplicationUnbindRequest]

theorem dispatch_tag_abandon (env : Env) (st : ConnState) (p : Packet)
    (ht : tagOf p = ApplicationAbandonRequest) :
    dispatch env st p = (st, [Event.abandonChainCall (reqOf p) st.boundDN], false) := by
  unfold tagOf at ht
  unfold dispatch
  simp [ht, ApplicationBindRequest, ApplicationSearchRequest, ApplicationUnbindRequest,
    ApplicationExtendedRequest, ApplicationAbandonRequest]

theorem dispatch_tag_default (env : Env) (st : ConnState) (p : Packet)
    (ht : tagOf p ∉ recognizedTags) :
    dispatch env st p =
      (st, [Event.sendAttempt (Response.ldapResponse (midOf p) ApplicationAddResponse
        LDAPResultOperationsError "Unsupported operation: add")], false) := by
  unfold tagOf at ht
  unfold recognizedTags at ht
  simp only [List.mem_cons, List.mem_singleton, not_or] at ht
  obtain ⟨n1, n2, n3, n4, n5, n6, n7, n8, n9, n10⟩ := ht
  unfold dispatch
  simp [n1, n2, n3, n4, n5, n6, n7, n8, n9, n10]

theorem sendBindDn_events (env : Env) (dn : String) :
    (sendBindDnRequest env dn).2.2 =
      [Event.bindChainCall true (synBindReq env),
       Event.sendAttempt (Response.bindResponse 0 (env.handleBind (synBindReq env)))] := rfl

theorem sendBindDn_eq (env : Env) (dn : String) :
    sendBindDnRequest env dn =
      (if env.handleBind (synBindReq env) = LDAPResultSuccess then
        (env.bindDn, env.sendOk (Response.bindResponse 0 (env.handleBind (synBindReq env))),
         [Event.bindChainCall true (synBindReq env),
          Event.sendAttempt (Response.bindResponse 0 (env.handleBind (synBindReq env)))])
       else
        (dn, false,
         [Event.bindChainCall true (synBindReq env),
          Event.sendAttempt (Response.bindResponse 0 (env.handleBind (synBindReq env)))])) := by
  by_cases hc : env.handleBind (synBindReq env) = LDAPResultSuccess <;>
    simp only [sendBindDnRequest, synBindReq, makeBindDnRequest, PacketList.ofList,
      PacketList.getD, Packet.children, Packet.value, defaultPacket] at hc ⊢ <;>
    simp [hc]

theorem sendBindDn_dn_change (env : Env) (dn : String)
    (h : (sendBindDnRequest env dn).1 ≠ dn) :
    env.handleBind (synBindReq env) = LDAPResultSuccess := by
  rw [sendBindDn_eq] at h
  by_contra hc
  simp [hc] at h

theorem sendBindDn_result_true (env : Env) (dn : String) :
    (sendBindDnRequest env dn).2.1 = true ↔
      (env.handleBind (synBindReq env) = LDAPResultSuccess
        ∧ env.sendOk (Response.bindResponse 0 (env.handleBind (synBindReq env))) = true) := by
  rw [sendBindDn_eq]
  by_cases hc : env.handleBind (synBindReq env) = LDAPResultSuccess <;> simp [hc]

theorem sendBindDn_dn_on_success (env : Env) (dn : String)
    (h : (sendBindDnRequest env dn).2.1 = true) :
    (sendBindDnRequest env dn).1 = env.bindDn := by
  rw [sendBindDn_result_true] at h
  rw [sendBindDn_eq]
  simp [h.1]

theorem countSyn_nil : countSyntheticBinds [] = 0 := rfl

theorem countSyn_cons (e : Event) (l : List Event) :
    countSyntheticBinds (e :: l) =
      countSyntheticBinds l + (if e.isSyntheticBind then 1 else 0) := by
  simp [countSyntheticBinds, List.countP_cons]

theorem countSyn_append (l1 l2 : List Event) :
    countSyntheticBinds (l1 ++ l2) = countSyntheticBinds l1 + countSyntheticBinds l2 := by
  simp [countSyntheticBinds, List.countP_append]

theorem countClose_nil : countCloseCalls [] = 0 := rfl

theorem countClose_cons (e : Event) (l : List Event) :
    countCloseCalls (e :: l) = countCloseCalls l + (if e.isClose then 1 else 0) := by
  simp [countCloseCalls, List.countP_cons]

theorem countClose_append (l1 l2 : List Event) :
    countCloseCalls (l1 ++ l2) = countCloseCalls l1 + countCloseCalls l2 := by
  simp [countCloseCalls, List.countP_append]

theorem sendBindDn_syn_count (env : Env) (dn : String) :
    countSyntheticBinds (sendBindDnRequest env dn).2.2 = 1 := by
  rw [sendBindDn_events]
  rfl

theorem sendBindDn_close_count (env : Env) (dn : String) :
    countCloseCalls (sendBindDnRequest env dn).2.2 = 0 := by
  rw [sendBindDn_events]
  rfl

theorem sendBindDn_syn_mem (env : Env) (dn : String) :
    Event.bindChainCall true (synBindReq env) ∈ (sendBindDnRequest env dn).2.2 := by
  rw [sendBindDn_events]
  exact List.mem_cons_self _ _

theorem bindRespond_syn_count (env : Env) (st : ConnState) (packet : Packet)
    (messageID code : Nat) :
    countSyntheticBinds (bindRespondAndMaybeForward env st packet messageID code).2.1 =
      if env.sendOk (Response.bindResponse messageID code) = true
          ∧ judgeBindDnIsEmpty packet false = true then 1 else 0 := by
  unfold bindRespondAndMaybeForward
  by_cases hs : env.sendOk (Response.bindResponse messageID code) = true <;>
    by_cases hj : judgeBindDnIsEmpty packet false = true <;>
    by_cases hf : (sendBindDnRequest env st.boundDN).2.1 = true <;>
    simp [hs, hj, hf, countSyn_cons, countSyn_nil, sendBindDn_syn_count, Event.isSyntheticBind]

theorem bindRespond_close_count (env : Env) (st : ConnState) (packet : Packet)
    (messageID code : Nat) :
    countCloseCalls (bindRespondAndMaybeForward env st packet messageID code).2.1 = 0 := by
  unfold bindRespondAndMaybeForward
  by_cases hs : env.sendOk (Response.bindResponse messageID code) = true <;>
    by_cases hj : judgeBindDnIsEmpty packet false = true <;>
    by_cases hf : (sendBindDnRequest env st.boundDN).2.1 = true <;>
    simp [hs, hj, hf, countClose_cons, countClose_nil, sendBindDn_close_count, Event.isClose]

theorem bindRespond_flag_mono (env : Env) (st : ConnState) (packet : Packet)
    (messageID code : Nat) (h : st.isSentBindDn = true) :
    (bindRespondAndMaybeForward env st packet messageID code).1.isSentBindDn = true := by
  unfold bindRespondAndMaybeForward
  by_cases hs : env.sendOk (Response.bindResponse messageID code) = true <;>
    by_cases hj : judgeBindDnIsEmpty packet false = true <;>
    by_cases hf : (sendBindDnRequest env st.boundDN).2.1 = true <;>
    simp [hs, hj, hf, h]

theorem bindRespond_syn_flag (env : Env) (st : ConnState) (packet : Packet)
    (messageID code : Nat)
    (h : 0 < countSyntheticBinds (bindRespondAndMaybeForward env st packet messageID code).2.1) :
    (bindRespondAndMaybeForward env st packet messageID code).1.isSentBindDn = true
    ∨ (bindRespondAndMaybeForward env st packet messageID code).2.2 = false := by
  unfold bindRespondAndMaybeForward at *
  by_cases hs : env.sendOk (Response.bindResponse messageID code) = true <;>
    by_cases hj : judgeBindDnIsEmpty packet false = true <;>
    by_cases hf : (sendBindDnRequest env st.boundDN).2.1 = true <;>
    simp_all [countSyn_cons, countSyn_nil, Event.isSyntheticBind]

theorem processGeneric_state (env : Env) (st : ConnState) (ev : Event) (code rt m : Nat) :
    (processGeneric env st ev code rt m).1 = st := rfl

theorem processGeneric_syn_count (env : Env) (st : ConnState) (ev : Event) (code rt m : Nat) :
    countSyntheticBinds (processGeneric env st ev code rt m).2.1 =
      if ev.isSyntheticBind then 1 else 0 := by
  simp [processGeneric, countSyn_cons, countSyn_nil]
  rfl

theorem processGeneric_close_count (env : Env) (st : ConnState) (ev : Event) (code rt m : Nat) :
    countCloseCalls (processGeneric env st ev code rt m).2.1 =
      if ev.isClose then 1 else 0 := by
  simp [processGeneric, countClose_cons, countClose_nil]
  rfl

theorem processBind_syn_count (env : Env) (st : ConnState) (packet req : Packet)
    (messageID : Nat) :
    countSyntheticBinds (processBind env st packet req messageID).2.1 =
      if (env.handleBind req = LDAPResultSuccess →
            isStrValue ((req.children.getD 1 defaultPacket)).value = true)
          ∧ env.sendOk (Response.bindResponse messageID (env.handleBind req)) = true
          ∧ judgeBindDnIsEmpty packet false = true then 1 else 0 := by
  unfold processBind
  by_cases hc : env.handleBind req = LDAPResultSuccess
  · rcases hv : (req.children.getD 1 defaultPacket).value with _ | n | i | s | b <;>
      simp [hc, hv, countSyn_cons, countSyn_nil, bindRespond_syn_count, isStrValue,
        Event.isSyntheticBind]
  · simp [hc, countSyn_cons, bindRespond_syn_count, Event.isSyntheticBind]

theorem processBind_close_count (env : Env) (st : ConnState) (packet req : Packet)
    (messageID : Nat) :
    countCloseCalls (processBind env st packet req messageID).2.1 = 0 := by
  unfold processBind
  by_cases hc : env.handleBind req = LDAPResultSuccess
  · rcases hv : (req.children.getD 1 defaultPacket).value with _ | n | i | s | b <;>
      simp [hc, hv, countClose_cons, countClose_nil, bindRespond_close_count, Event.isClose]
  · simp [hc, countClose_cons, bindRespond_close_count, Event.isClose]

theorem processBind_flag_mono (env : Env) (st : ConnState) (packet req : Packet)
    (messageID : Nat) (h : st.isSentBindDn = true) :
    (processBind env st packet req messageID).1.isSentBindDn = true := by
  unfold processBind
  by_cases hc : env.handleBind req = LDAPResultSuccess
  · rcases hv : (req.children.getD 1 defaultPacket).value with _ | n | i | s | b <;>
      simp [hc, hv, h]
    exact bindRespond_flag_mono _ _ _ _ _ (by simp [h])
  · simp [hc]
    exact bindRespond_flag_mono _ _ _ _ _ h

theorem processBind_syn_flag (env : Env) (st : ConnState) (packet req : Packet)
    (messageID : Nat)
    (h : 0 < countSyntheticBinds (processBind env st packet req messageID).2.1) :
    (processBind env st packet req messageID).1.isSentBindDn = true
    ∨ (processBind env st packet req messageID).2.2 = false := by
  unfold processBind at h ⊢
  by_cases hc : env.handleBind req = LDAPResultSuccess
  · rcases hv : (req.children.getD 1 defaultPacket).value with _ | n | i | s | b <;>
      simp [hc, hv, countSyn_cons, countSyn_nil, Event.isSyntheticBind] at h ⊢
    exact bindRespond_syn_flag _ _ _ _ _ h
  · simp [hc, countSyn_cons, Event.isSyntheticBind] at h ⊢
    exact bindRespond_syn_flag _ _ _ _ _ h

theorem bindRespond_dn_change (env : Env) (st : ConnState) (packet : Packet)
    (messageID code : Nat)
    (h : (bindRespondAndMaybeForward env st packet messageID code).1.boundDN ≠ st.boundDN) :
    ∃ b r, Event.bindChainCall b r ∈ (bindRespondAndMaybeForward env st packet messageID code).2.1
      ∧ env.handleBind r = LDAPResultSuccess := by
  unfold bindRespondAndMaybeForward at h ⊢
  by_cases hs : env.sendOk (Response.bindResponse messageID code) = true
  · by_cases hj : judgeBindDnIsEmpty packet false = true
    · by_cases hf : (sendBindDnRequest env st.boundDN).2.1 = true
      · refine ⟨true, synBindReq env, ?_, ?_⟩
        · simp only [hs, hj, hf, if_true, if_pos]
          exact List.mem_cons_of_mem _ (sendBindDn_syn_mem env st.boundDN)
        · exact ((sendBindDn_result_true env st.boundDN).mp hf).1
      · refine ⟨true, synBindReq env, ?_, ?_⟩
        · simp only [hs, hj, hf, if_true, if_neg, if_false, Bool.false_eq_true,
            not_false_iff]
          simp [hf]
          exact sendBindDn_syn_mem env st.boundDN
        · apply sendBindDn_dn_change env st.boundDN
          simp [hs, hj, hf] at h
          exact h
    · exfalso
      apply h
      simp [hs, hj]
  · exfalso
    apply h
    simp [hs]

theorem processBind_dn_change (env : Env) (st : ConnState) (packet req : Packet)
    (messageID : Nat)
    (h : (processBind env st packet req messageID).1.boundDN ≠ st.boundDN) :
    ∃ b r, Event.bindChainCall b r ∈ (processBind env st packet req messageID).2.1
      ∧ env.handleBind r = LDAPResultSuccess := by
  by_cases hc : env.handleBind req = LDAPResultSuccess
  · refine ⟨false, req, ?_, hc⟩
    unfold processBind
    rcases hv : (req.children.getD 1 defaultPacket).value with _ | n | i | s | b <;>
      simp [hc, hv]
  · unfold processBind at h ⊢
    simp only [hc, if_false, if_neg, not_false_iff] at h ⊢
    obtain ⟨b, r, hmem, hsucc⟩ := bindRespond_dn_change env st packet messageID
      (env.handleBind req) (by simpa using h)
    exact ⟨b, r, by simp [hmem], hsucc⟩

theorem processSearch_syn_count (env : Env) (st : ConnState) (req : Packet)
    (controls : List Packet) (messageID : Nat) :
    countSyntheticBinds (processSearch env st req controls messageID).2.1 =
      if st.isSentBindDn = true then 0 else 1 := by
  unfold processSearch
  by_cases hsent : st.isSentBindDn = true
  · rcases hr : env.handleSearch req controls messageID st.boundDN with _ | code <;>
      simp [hsent, hr, countSyn_append, countSyn_cons, countSyn_nil, Event.isSyntheticBind]
  · by_cases hf : (sendBindDnRequest env st.boundDN).2.1 = true
    · rcases hr : env.handleSearch req controls messageID (sendBindDnRequest env st.boundDN).1
        with _ | code <;>
      simp [hsent, hf, hr, countSyn_append, countSyn_cons, countSyn_nil,
        sendBindDn_syn_count, Event.isSyntheticBind]
    · simp [hsent, hf, sendBindDn_syn_count]

theorem processSearch_close_count (env : Env) (st : ConnState) (req : Packet)
    (controls : List Packet) (messageID : Nat) :
    countCloseCalls (processSearch env st req controls messageID).2.1 = 0 := by
  unfold processSearch
  by_cases hsent : st.isSentBindDn = true
  · rcases hr : env.handleSearch req controls messageID st.boundDN with _ | code <;>
      simp [hsent, hr, countClose_append, countClose_cons, countClose_nil, Event.isClose]
  · by_cases hf : (sendBindDnRequest env st.boundDN).2.1 = true
    · rcases hr : env.handleSearch req controls messageID (sendBindDnRequest env st.boundDN).1
        with _ | code <;>
      simp [hsent, hf, hr, countClose_append, countClose_cons, countClose_nil,
        sendBindDn_close_count, Event.isClose]
    · simp [hsent, hf, sendBindDn_close_count]

theorem processSearch_flag_mono (env : Env) (st : ConnState) (req : Packet)
    (controls : List Packet) (messageID : Nat) (h : st.isSentBindDn = true) :
    (processSearch env st req controls messageID).1.isSentBindDn = true := by
  unfold processSearch
  rcases hr : env.handleSearch req controls messageID st.boundDN with _ | code <;>
    simp [h, hr]

theorem processSearch_syn_flag (env : Env) (st : ConnState) (req : Packet)
    (controls : List Packet) (messageID : Nat)
    (h : 0 < countSyntheticBinds (processSearch env st req controls messageID).2.1) :
    (processSearch env st req controls messageID).1.isSentBindDn = true
    ∨ (processSearch env st req controls messageID).2.2 = false := by
  by_cases hsent : st.isSentBindDn = true
  · exact Or.inl (processSearch_flag_mono env st req controls messageID hsent)
  · unfold processSearch
    by_cases hf : (sendBindDnRequest env st.boundDN).2.1 = true
    · rcases hr : env.handleSearch req controls messageID (sendBindDnRequest env st.boundDN).1
        with _ | code <;>
      simp [hsent, hf, hr]
    · simp [hsent, hf]

theorem processSearch_dn_change (env : Env) (st : ConnState) (req : Packet)
    (controls : List Packet) (messageID : Nat)
    (h : (processSearch env st req controls messageID).1.boundDN ≠ st.boundDN) :
    ∃ b r, Event.bindChainCall b r ∈ (processSearch env st req controls messageID).2.1
      ∧ env.handleBind r = LDAPResultSuccess := by
  by_cases hsent : st.isSentBindDn = true
  · exfalso
    apply h
    unfold processSearch
    rcases hr : env.handleSearch req controls messageID st.boundDN with _ | code <;>
      simp [hsent, hr]
  · unfold processSearch at h ⊢
    by_cases hf : (sendBindDnRequest env st.boundDN).2.1 = true
    · refine ⟨true, synBindReq env, ?_, ((sendBindDn_result_true env st.boundDN).mp hf).1⟩
      rcases hr : env.handleSearch req controls messageID (sendBindDnRequest env st.boundDN).1
        with _ | code <;>
      · simp [hsent, hf, hr]
        exact sendBindDn_syn_mem env st.boundDN
    · refine ⟨true, synBindReq env, ?_, ?_⟩
      · simp [hsent, hf]
        exact sendBindDn_syn_mem env st.boundDN
      · apply sendBindDn_dn_change env st.boundDN
        simp [hsent, hf] at h
        exact h

theorem dispatch_syn_le_one (env : Env) (st : ConnState) (p : Packet) :
    countSyntheticBinds (dispatch env st p).2.1 ≤ 1 := by
  unfold dispatch
  dsimp only
  split_ifs
  · rw [processBind_syn_count]
    split <;> omega
  · rw [processSearch_syn_count]
    split <;> omega
  · simp [countSyn_nil]
  · rw [processGeneric_syn_count]
    simp [Event.isSyntheticBind]
  · simp [countSyn_cons, countSyn_nil, Event.isSyntheticBind]
  · rw [processGeneric_syn_count]
    simp [Event.isSyntheticBind]
  · rw [processGeneric_syn_count]
    simp [Event.isSyntheticBind]
  · rw [processGeneric_syn_count]
    simp [Event.isSyntheticBind]
  · rw [processGeneric_syn_count]
    simp [Event.isSyntheticBind]
  · rw [processGeneric_syn_count]
    simp [Event.isSyntheticBind]
  · simp [countSyn_cons, countSyn_nil, Event.isSyntheticBind]

theorem processPacket_syn_le_one (env : Env) (st : ConnState) (p : Packet) :
    countSyntheticBinds (processPacket env st p).2.1 ≤ 1 := by
  rw [processPacket_eq]
  split
  · exact dispatch_syn_le_one env st p
  · simp [countSyn_nil]

theorem dispatch_close_count (env : Env) (st : ConnState) (p : Packet) :
    countCloseCalls (dispatch env st p).2.1 = 0 := by
  unfold dispatch
  dsimp only
  split_ifs
  · exact processBind_close_count env st p (reqOf p) (midOf p)
  · exact processSearch_close_count env st (reqOf p) (controlsOf p) (midOf p)
  · simp [countClose_nil]
  · rw [processGeneric_close_count]
    simp [Event.isClose]
  · simp [countClose_cons, countClose_nil, Event.isClose]
  · rw [processGeneric_close_count]
    simp [Event.isClose]
  · rw [processGeneric_close_count]
    simp [Event.isClose]
  · rw [processGeneric_close_count]
    simp [Event.isClose]
  · rw [processGeneric_close_count]
    simp [Event.isClose]
  · rw [processGeneric_close_count]
    simp [Event.isClose]
  · simp [countClose_cons, countClose_nil, Event.isClose]

theorem processPacket_close_count (env : Env) (st : ConnState) (p : Packet) :
    countCloseCalls (processPacket env st p).2.1 = 0 := by
  rw [processPacket_eq]
  split
  · exact dispatch_close_count env st p
  · simp [countClose_nil]

theorem dispatch_flag_mono (env : Env) (st : ConnState) (p : Packet)
    (h : st.isSentBindDn = true) :
    (dispatch env st p).1.isSentBindDn = true := by
  unfold dispatch
  dsimp only
  split_ifs
  · exact processBind_flag_mono env st p (reqOf p) (midOf p) h
  · exact processSearch_flag_mono env st (reqOf p) (controlsOf p) (midOf p) h
  all_goals simp [processGeneric_state, h]

theorem processPacket_flag_mono (env : Env) (st : ConnState) (p : Packet)
    (h : st.isSentBindDn = true) :
    (processPacket env st p).1.isSentBindDn = true := by
  rw [processPacket_eq]
  split
  · exact dispatch_flag_mono env st p h
  · exact h

theorem dispatch_syn_flag (env : Env) (st : ConnState) (p : Packet)
    (h : 0 < countSyntheticBinds (dispatch env st p).2.1) :
    (dispatch env st p).1.isSentBindDn = true ∨ (dispatch env st p).2.2 = false := by
  unfold dispatch at h ⊢
  dsimp only at h ⊢
  split_ifs at h ⊢
  · exact processBind_syn_flag env st p (reqOf p) (midOf p) h
  · exact processSearch_syn_flag env st (reqOf p) (controlsOf p) (midOf p) h
  all_goals
    exfalso
    first
      | (rw [processGeneric_syn_count] at h
         simp [Event.isSyntheticBind] at h)
      | simp [countSyn_cons, countSyn_nil, Event.isSyntheticBind] at h

theorem processPacket_syn_flag (env : Env) (st : ConnState) (p : Packet)
    (h : 0 < countSyntheticBinds (processPacket env st p).2.1) :
    (processPacket env st p).1.isSentBindDn = true ∨ (processPacket env st p).2.2 = false := by
  rw [processPacket_eq] at h ⊢
  revert h
  split
  · exact fun h => dispatch_syn_flag env st p h
  · simp [countSyn_nil]

theorem dispatch_syn_zero_of_sent (env : Env) (st : ConnState) (p : Packet)
    (hsent : st.isSentBindDn = true) (ht : tagOf p ≠ ApplicationBindRequest) :
    countSyntheticBinds (dispatch env st p).2.1 = 0 := by
  unfold tagOf at ht
  unfold dispatch
  dsimp only
  split_ifs with h1
  · exact absurd h1 ht
  · rw [processSearch_syn_count]
    simp [hsent]
  · simp [countSyn_nil]
  · rw [processGeneric_syn_count]
    simp [Event.isSyntheticBind]
  · simp [countSyn_cons, countSyn_nil, Event.isSyntheticBind]
  · rw [processGeneric_syn_count]
    simp [Event.isSyntheticBind]
  · rw [processGeneric_syn_count]
    simp [Event.isSyntheticBind]
  · rw [processGeneric_syn_count]
    simp [Event.isSyntheticBind]
  · rw [processGeneric_syn_count]
    simp [Event.isSyntheticBind]
  · rw [processGeneric_syn_count]
    simp [Event.isSyntheticBind]
  · simp [countSyn_cons, countSyn_nil, Event.isSyntheticBind]

theorem processPacket_syn_zero_of_sent (env : Env) (st : ConnState) (p : Packet)
    (hsent : st.isSentBindDn = true) (ht : tagOf p ≠ ApplicationBindRequest) :
    countSyntheticBinds (processPacket env st p).2.1 = 0 := by
  rw [processPacket_eq]
  split
  · exact dispatch_syn_zero_of_sent env st p hsent ht
  · simp [countSyn_nil]

theorem runLoop_close_count (env : Env) : ∀ (input : List Packet) (st : ConnState),
    countCloseCalls (runLoop env st input).2 = 0 := by
  intro input
  induction input with
  | nil => intro st; simp [runLoop, countClose_nil]
  | cons p rest ih =>
    intro st
    unfold runLoop
    by_cases hc : (processPacket env st p).2.2 = true <;>
      simp [hc, countClose_append, processPacket_close_count, ih]

theorem runLoop_syn_le (env : Env) : ∀ (input : List Packet) (st : ConnState),
    noBindInput input = true →
    countSyntheticBinds (runLoop env st input).2 ≤ (if st.isSentBindDn = true then 0 else 1) := by
  intro input
  induction input with
  | nil =>
    intro st _
    simp only [runLoop, countSyn_nil]
    split <;> omega
  | cons p rest ih =>
    intro st hnb
    have hnb' : (!(tagOf p == ApplicationBindRequest)) = true ∧ noBindInput rest = true := by
      simpa [noBindInput, List.all_cons] using hnb
    have hnb1 : tagOf p ≠ ApplicationBindRequest := by
      have := hnb'.1
      simp at this
      exact this
    have hnb2 : noBindInput rest = true := hnb'.2
    unfold runLoop
    dsimp only
    by_cases hc : (processPacket env st p).2.2 = true
    · rw [if_pos hc]
      dsimp only
      rw [countSyn_append]
      by_cases hsent : st.isSentBindDn = true
      · have h0 := processPacket_syn_zero_of_sent env st p hsent hnb1
        have hflag := processPacket_flag_mono env st p hsent
        have hrest := ih (processPacket env st p).1 hnb2
        rw [if_pos hflag] at hrest
        rw [if_pos hsent]
        omega
      · rw [if_neg hsent]
        have hstep := processPacket_syn_le_one env st p
        rcases Nat.eq_zero_or_pos (countSyntheticBinds (processPacket env st p).2.1) with h0 | hpos
        · have hrest := ih (processPacket env st p).1 hnb2
          have : countSyntheticBinds (runLoop env (processPacket env st p).1 rest).2 ≤ 1 := by
            refine le_trans hrest ?_
            split <;> omega
          omega
        · rcases processPacket_syn_flag env st p hpos with hflag | hstop
          · have hrest := ih (processPacket env st p).1 hnb2
            rw [if_pos hflag] at hrest
            omega
          · rw [hc] at hstop
            exact absurd hstop (by simp)
    · rw [if_neg hc]
      dsimp only
      by_cases hsent : st.isSentBindDn = true
      · rw [if_pos hsent]
        have h0 := processPacket_syn_zero_of_sent env st p hsent hnb1
        omega
      · rw [if_neg hsent]
        exact processPacket_syn_le_one env st p

theorem sendBindDn_result_eq (env : Env) (dn : String) :
    (sendBindDnRequest env dn).2.1 = forwardAttemptSucceeds env := by
  rw [sendBindDn_eq]
  unfold forwardAttemptSucceeds
  by_cases hc : env.handleBind (synBindReq env) = LDAPResultSuccess <;> simp [hc]

theorem dispatch_syn_zero_other (env : Env) (st : ConnState) (p : Packet)
    (h1 : tagOf p ≠ ApplicationBindRequest) (h2 : tagOf p ≠ ApplicationSearchRequest) :
    countSyntheticBinds (dispatch env st p).2.1 = 0 := by
  unfold tagOf at h1 h2
  unfold dispatch
  dsimp only
  rw [if_neg h1, if_neg h2]
  split_ifs
  · simp [countSyn_nil]
  · rw [processGeneric_syn_count]
    simp [Event.isSyntheticBind]
  · simp [countSyn_cons, countSyn_nil, Event.isSyntheticBind]
  · rw [processGeneric_syn_count]
    simp [Event.isSyntheticBind]
  · rw [processGeneric_syn_count]
    simp [Event.isSyntheticBind]
  · rw [processGeneric_syn_count]
    simp [Event.isSyntheticBind]
  · rw [processGeneric_syn_count]
    simp [Event.isSyntheticBind]
  · rw [processGeneric_syn_count]
    simp [Event.isSyntheticBind]
  · simp [countSyn_cons, countSyn_nil, Event.isSyntheticBind]

theorem bindRespond_syn_attempt (env : Env) (st : ConnState) (packet : Packet)
    (messageID code : Nat)
    (h : 0 < countSyntheticBinds (bindRespondAndMaybeForward env st packet messageID code).2.1) :
    (forwardAttemptSucceeds env = true →
      (bindRespondAndMaybeForward env st packet messageID code).1.isSentBindDn = true)
    ∧ (forwardAttemptSucceeds env = false →
        (bindRespondAndMaybeForward env st packet messageID code).2.2 = false
        ∧ (bindRespondAndMaybeForward env st packet messageID code).1.isSentBindDn
            = st.isSentBindDn) := by
  have hfe := sendBindDn_result_eq env st.boundDN
  unfold bindRespondAndMaybeForward at h ⊢
  by_cases hs : env.sendOk (Response.bindResponse messageID code) = true
  · by_cases hj : judgeBindDnIsEmpty packet false = true
    · by_cases hf : forwardAttemptSucceeds env = true
      · constructor
        · intro _
          simp [hs, hj, hfe, hf]
        · intro hfail
          rw [hf] at hfail
          exact absurd hfail (by simp)
      · have hf' : forwardAttemptSucceeds env = false := by simpa using hf
        constructor
        · intro hsucc
          exact absurd hsucc hf
        · intro _
          simp [hs, hj, hfe, hf']
    · exfalso
      simp [hs, hj, countSyn_cons, countSyn_nil, Event.isSyntheticBind] at h
  · exfalso
    simp [hs, countSyn_cons, countSyn_nil, Event.isSyntheticBind] at h

theorem processBind_syn_attempt (env : Env) (st : ConnState) (packet req : Packet)
    (messageID : Nat)
    (h : 0 < countSyntheticBinds (processBind env st packet req messageID).2.1) :
    (forwardAttemptSucceeds env = true →
      (processBind env st packet req messageID).1.isSentBindDn = true)
    ∧ (forwardAttemptSucceeds env = false →
        (processBind env st packet req messageID).2.2 = false
        ∧ (processBind env st packet req messageID).1.isSentBindDn = st.isSentBindDn) := by
  unfold processBind at h ⊢
  by_cases hc : env.handleBind req = LDAPResultSuccess
  · rcases hv : (req.children.getD 1 defaultPacket).value with _ | n | i | s | b <;>
      simp [hc, hv, countSyn_cons, countSyn_nil, Event.isSyntheticBind] at h ⊢
    obtain ⟨h1, h2⟩ := bindRespond_syn_attempt env { st with boundDN := s } packet messageID
      LDAPResultSuccess h
    exact ⟨fun hsucc => h1 hsucc, fun hfail => ⟨(h2 hfail).1, by simpa using (h2 hfail).2⟩⟩
  · simp [hc, countSyn_cons, Event.isSyntheticBind] at h ⊢
    obtain ⟨h1, h2⟩ := bindRespond_syn_attempt env st packet messageID (env.handleBind req) h
    exact ⟨fun hsucc => h1 hsucc, fun hfail => ⟨(h2 hfail).1, (h2 hfail).2⟩⟩

theorem processSearch_syn_attempt (env : Env) (st : ConnState) (req : Packet)
    (controls : List Packet) (messageID : Nat)
    (h : 0 < countSyntheticBinds (processSearch env st req controls messageID).2.1) :
    (forwardAttemptSucceeds env = true →
      (processSearch env st req controls messageID).1.isSentBindDn = true)
    ∧ (forwardAttemptSucceeds env = false →
        (processSearch env st req controls messageID).2.2 = false
        ∧ (processSearch env st req controls messageID).1.isSentBindDn = st.isSentBindDn) := by
  by_cases hsent : st.isSentBindDn = true
  · exfalso
    rw [processSearch_syn_count] at h
    simp [hsent] at h
  · have hfe := sendBindDn_result_eq env st.boundDN
    unfold processSearch
    by_cases hf : forwardAttemptSucceeds env = true
    · constructor
      · intro _
        rcases hr : env.handleSearch req controls messageID (sendBindDnRequest env st.boundDN).1
          with _ | code <;>
        simp [hsent, hfe, hf, hr]
      · intro hfail
        rw [hf] at hfail
        exact absurd hfail (by simp)
    · have hf' : forwardAttemptSucceeds env = false := by simpa using hf
      constructor
      · intro hsucc
        exact absurd hsucc hf
      · intro _
        simp [hsent, hfe, hf']

/-- Claim C1 counterexample: after a successful bind with the non-empty
credential "p" and no empty octet string anywhere in the request (the
connection is bound: `boundDN = "u"`, and no forwarding happened during the
bind), a subsequent search request still triggers the Bind Forwarder exactly
once, because the code guards the search path only with `isSentBindDn`. -/
theorem claim1_counterexample :
    judgeBindDnIsEmpty (bindEnvPkt 1 "u" "p") false = false
    ∧ (processPacket envAllOk { boundDN := "", isSentBindDn := false } (bindEnvPkt 1 "u" "p")).1
        = { boundDN := "u", isSentBindDn := false }
    ∧ countSyntheticBinds (processPacket envAllOk { boundDN := "", isSentBindDn := false }
        (bindEnvPkt 1 "u" "p")).2.1 = 0
    ∧ countSyntheticBinds (handleConnectionAndSendBindDn envAllOk
        [bindEnvPkt 1 "u" "p", searchEnvPkt 2]) = 1 :=
  ⟨by decide, by decide, by decide, by decide⟩

/-- Claim C1 amended: before a search request the Bind Forwarder is invoked
iff the connection has not yet forwarded (`isSentBindDn = false`), regardless
of whether a bind has succeeded. -/
theorem claim1_amended (env : Env) (st : ConnState) (p : Packet)
    (hv : validEnvelope p = true) (ht : tagOf p = ApplicationSearchRequest) :
    (0 < countSyntheticBinds (processPacket env st p).2.1 ↔ st.isSentBindDn = false) := by
  rw [processPacket_eq, if_pos hv, dispatch_tag_search env st p ht, processSearch_syn_count]
  by_cases hsent : st.isSentBindDn = true <;> simp [hsent]

/-- Claim C1 amended, witness: a bound but not-yet-forwarded connection
receiving a search. -/
theorem claim1_witness :
    validEnvelope (searchEnvPkt 2) = true
    ∧ tagOf (searchEnvPkt 2) = ApplicationSearchRequest
    ∧ (0 < countSyntheticBinds (processPacket envAllOk
          { boundDN := "u", isSentBindDn := false } (searchEnvPkt 2)).2.1
        ↔ ({ boundDN := "u", isSentBindDn := false } : ConnState).isSentBindDn = false) :=
  ⟨by decide, by decide, claim1_amended envAllOk _ _ (by decide) (by decide)⟩

/-- Claim C2 counterexample: a wire bind whose handler chain returns 49
(non-success) but whose request holds an empty octet string still triggers the
Bind Forwarder — the code never consults the result code before forwarding. -/
theorem claim2_counterexample :
    envBindFail.handleBind (reqOf (bindEnvPkt 1 "u" "")) = 49
    ∧ judgeBindDnIsEmpty (bindEnvPkt 1 "u" "") false = true
    ∧ countSyntheticBinds (processPacket envBindFail { boundDN := "", isSentBindDn := false }
        (bindEnvPkt 1 "u" "")).2.1 = 1 :=
  ⟨by decide, by decide, by decide⟩

/-- Claim C2 amended: after a wire bind the Bind Forwarder is invoked iff the
Predicate Evaluator judges the envelope empty and the bind response was sent
successfully (and, when the result code is success, the DN field is a string,
otherwise the loop breaks before judging) — the bind's result code itself is
not consulted. -/
theorem claim2_amended (env : Env) (st : ConnState) (p : Packet)
    (hv : validEnvelope p = true) (ht : tagOf p = ApplicationBindRequest) :
    (0 < countSyntheticBinds (processPacket env st p).2.1 ↔
      ((env.handleBind (reqOf p) = LDAPResultSuccess →
          isStrValue (((reqOf p).children.getD 1 defaultPacket)).value = true)
        ∧ env.sendOk (Response.bindResponse (midOf p) (env.handleBind (reqOf p))) = true
        ∧ judgeBindDnIsEmpty p false = true)) := by
  rw [processPacket_eq, if_pos hv, dispatch_tag_bind env st p ht, processBind_syn_count]
  split <;> simp_all

/-- Claim C2 amended, witness: a successful bind with an empty credential
forwards. -/
theorem claim2_witness :
    validEnvelope (bindEnvPkt 1 "u" "") = true
    ∧ tagOf (bindEnvPkt 1 "u" "") = ApplicationBindRequest
    ∧ (0 < countSyntheticBinds (processPacket envAllOk
          { boundDN := "", isSentBindDn := false } (bindEnvPkt 1 "u" "")).2.1 ↔
        ((envAllOk.handleBind (reqOf (bindEnvPkt 1 "u" "")) = LDAPResultSuccess →
            isStrValue (((reqOf (bindEnvPkt 1 "u" "")).children.getD 1 defaultPacket)).value = true)
          ∧ envAllOk.sendOk (Response.bindResponse (midOf (bindEnvPkt 1 "u" ""))
              (envAllOk.handleBind (reqOf (bindEnvPkt 1 "u" "")))) = true
          ∧ judgeBindDnIsEmpty (bindEnvPkt 1 "u" "") false = true)) :=
  ⟨by decide, by decide, claim2_amended envAllOk _ _ (by decide) (by decide)⟩

/-- Claim C3 counterexample: two successive binds with empty credentials make
the Bind Forwarder's synthetic bind chain call occur twice on one connection —
the bind path never checks `isSentBindDn`. -/
theorem claim3_counterexample :
    countSyntheticBinds (handleConnectionAndSendBindDn envAllOk
      [bindEnvPkt 1 "u" "", bindEnvPkt 2 "u" ""]) = 2 := by decide

/-- Claim C3 amended: each processed message triggers at most one synthetic
bind chain call, and on a connection that never receives a bind request the
synthetic bind chain call occurs at most once in total; but each bind judged
empty-credential adds a forwarding attempt, so the per-connection total can
exceed one. -/
theorem claim3_amended (env : Env) (st : ConnState) (p : Packet) (input : List Packet)
    (h : noBindInput input = true) :
    countSyntheticBinds (processPacket env st p).2.1 ≤ 1
    ∧ countSyntheticBinds (handleConnectionAndSendBindDn env input) ≤ 1 := by
  refine ⟨processPacket_syn_le_one env st p, ?_⟩
  unfold handleConnectionAndSendBindDn
  dsimp only
  rw [countSyn_append]
  have h1 := runLoop_syn_le env input { boundDN := "", isSentBindDn := false } h
  simp only [Bool.false_eq_true, if_neg, if_false] at h1
  have h2 : countSyntheticBinds [Event.closeCall (runLoop env
      { boundDN := "", isSentBindDn := false } input).1.boundDN, Event.connClose] = 0 := by
    simp [countSyn_cons, countSyn_nil, Event.isSyntheticBind]
  omega

/-- Claim C3 amended, witness: a connection issuing two searches forwards
exactly once (in particular at most once). -/
theorem claim3_witness :
    noBindInput [searchEnvPkt 1, searchEnvPkt 2] = true
    ∧ (countSyntheticBinds (processPacket envAllOk { boundDN := "", isSentBindDn := false }
          (searchEnvPkt 1)).2.1 ≤ 1
        ∧ countSyntheticBinds (handleConnectionAndSendBindDn envAllOk
            [searchEnvPkt 1, searchEnvPkt 2]) ≤ 1) :=
  ⟨by decide, claim3_amended envAllOk { boundDN := "", isSentBindDn := false }
    (searchEnvPkt 1) _ (by decide)⟩

/-- Claim C5 counterexample: a bind judged empty-credential whose forwarding
attempt fails (the synthetic bind chain returns 49, so `sendBindDnRequest`
returns false) leaves `isSentBindDn = false`: the flag is NOT set after a
failed attempt — the code breaks the loop before the assignment. -/
theorem claim5_counterexample :
    countSyntheticBinds (processPacket envSynFail { boundDN := "", isSentBindDn := false }
      (bindEnvPkt 1 "u" "")).2.1 = 1
    ∧ (processPacket envSynFail { boundDN := "", isSentBindDn := false }
        (bindEnvPkt 1 "u" "")).1.isSentBindDn = false
    ∧ (processPacket envSynFail { boundDN := "", isSentBindDn := false }
        (bindEnvPkt 1 "u" "")).2.2 = false :=
  ⟨by decide, by decide, by decide⟩

/-- Claim C5 amended: whenever a message's processing makes a forwarding
attempt, the attempt's outcome is the boolean `sendBindDnRequest` returns
(equal to `forwardAttemptSucceeds env`, which is independent of the current
bound DN): after a successful attempt the `isSentBindDn` flag is set to true
(even when the message's processing later stops, e.g. on a search handler
error); after a failed attempt the session terminates immediately with the
flag unchanged — in particular still false when no earlier attempt had
succeeded.  The flag is NOT set unconditionally as the claim states. -/
theorem claim5_amended (env : Env) (st : ConnState) (p : Packet)
    (h : 0 < countSyntheticBinds (processPacket env st p).2.1) :
    ((sendBindDnRequest env st.boundDN).2.1 = forwardAttemptSucceeds env)
    ∧ (forwardAttemptSucceeds env = true →
        (processPacket env st p).1.isSentBindDn = true)
    ∧ (forwardAttemptSucceeds env = false →
        (processPacket env st p).2.2 = false
        ∧ (processPacket env st p).1.isSentBindDn = st.isSentBindDn) := by
  refine ⟨sendBindDn_result_eq env st.boundDN, ?_⟩
  rw [processPacket_eq] at h ⊢
  by_cases hv : validEnvelope p = true
  · rw [if_pos hv] at h ⊢
    by_cases h1 : tagOf p = ApplicationBindRequest
    · rw [dispatch_tag_bind env st p h1] at h ⊢
      exact processBind_syn_attempt env st p (reqOf p) (midOf p) h
    · by_cases h2 : tagOf p = ApplicationSearchRequest
      · rw [dispatch_tag_search env st p h2] at h ⊢
        exact processSearch_syn_attempt env st (reqOf p) (controlsOf p) (midOf p) h
      · exfalso
        rw [dispatch_syn_zero_other env st p h1 h2] at h
        exact absurd h (by simp)
  · exfalso
    rw [if_neg hv] at h
    simp [countSyn_nil] at h

/-- Claim C5 amended, witness: a bind judged empty on a fresh connection,
with a succeeding forwarding attempt. -/
theorem claim5_witness :
    0 < countSyntheticBinds (processPacket envAllOk { boundDN := "", isSentBindDn := false }
      (bindEnvPkt 3 "u" "")).2.1
    ∧ (((sendBindDnRequest envAllOk
          ({ boundDN := "", isSentBindDn := false } : ConnState).boundDN).2.1
            = forwardAttemptSucceeds envAllOk)
      ∧ (forwardAttemptSucceeds envAllOk = true →
          (processPacket envAllOk { boundDN := "", isSentBindDn := false }
            (bindEnvPkt 3 "u" "")).1.isSentBindDn = true)
      ∧ (forwardAttemptSucceeds envAllOk = false →
          (processPacket envAllOk { boundDN := "", isSentBindDn := false }
            (bindEnvPkt 3 "u" "")).2.2 = false
          ∧ (processPacket envAllOk { boundDN := "", isSentBindDn := false }
              (bindEnvPkt 3 "u" "")).1.isSentBindDn
            = ({ boundDN := "", isSentBindDn := false } : ConnState).isSentBindDn)) :=
  ⟨by decide, claim5_amended envAllOk _ _ (by decide)⟩

/-- Claim C6: an envelope with fewer than two top-level children, or a
message ID that is not an unsigned integer, or a request node whose class is
not application, terminates the session at once: no event is emitted (in
particular no response is sent), the state is unchanged, and the rest of the
stream is never processed. -/
theorem claim6_invalid_envelope (env : Env) (st : ConnState) (p : Packet)
    (rest : List Packet) (h : validEnvelope p = false) :
    runLoop env st (p :: rest) = (st, []) := by
  have h0 : processPacket env st p = (st, [], false) := by
    rw [processPacket_eq]
    simp [h]
  unfold runLoop
  simp [h0]

/-- Claim C6, witness: an envelope with a single child. -/
theorem claim6_witness :
    validEnvelope shortEnvPkt = false
    ∧ runLoop envAllOk { boundDN := "", isSentBindDn := false } [shortEnvPkt, searchEnvPkt 2]
        = ({ boundDN := "", isSentBindDn := false }, []) :=
  ⟨by decide, claim6_invalid_envelope envAllOk _ _ _ (by decide)⟩

/-- Claim C7: a valid envelope whose operation tag is not one of the ten
recognized kinds yields exactly one response — an `encodeLDAPResponse` with
the operations-error result code tagged as an add-response — and the session
terminates immediately. -/
theorem claim7_unsupported (env : Env) (st : ConnState) (p : Packet) (m : Nat)
    (hv : validEnvelope p = true)
    (hm : (p.children.getD 0 defaultPacket).value = BerValue.uint m)
    (ht : tagOf p ∉ recognizedTags) :
    processPacket env st p =
      (st, [Event.sendAttempt (Response.ldapResponse m ApplicationAddResponse
        LDAPResultOperationsError "Unsupported operation: add")], false) := by
  rw [processPacket_eq, if_pos hv, dispatch_tag_default env st p ht]
  have hmid : midOf p = m := by simp [midOf, hm]
  rw [hmid]

/-- Claim C7, witness: an envelope with the unassigned tag 99. -/
theorem claim7_witness :
    validEnvelope (opEnvPkt 7 99) = true
    ∧ ((opEnvPkt 7 99).children.getD 0 defaultPacket).value = BerValue.uint 7
    ∧ tagOf (opEnvPkt 7 99) ∉ recognizedTags
    ∧ processPacket envAllOk { boundDN := "", isSentBindDn := false } (opEnvPkt 7 99) =
        ({ boundDN := "", isSentBindDn := false },
         [Event.sendAttempt (Response.ldapResponse 7 ApplicationAddResponse
           LDAPResultOperationsError "Unsupported operation: add")], false) :=
  ⟨by decide, by decide, by decide,
    claim7_unsupported envAllOk _ _ 7 (by decide) (by decide) (by decide)⟩

/-- Claim C8: an unbind or abandon operation terminates the session without
sending any response for that message, and on every termination path the close
collaborators run exactly once, with the final bound identity, followed by the
connection close. -/
theorem claim8_unbind_abandon_close_once (env : Env) (input : List Packet)
    (st : ConnState) (p : Packet) (hv : validEnvelope p = true)
    (ht : tagOf p = ApplicationUnbindRequest ∨ tagOf p = ApplicationAbandonRequest) :
    ((processPacket env st p).2.1.all (fun e => !e.isSend) = true
      ∧ (processPacket env st p).2.2 = false)
    ∧ countCloseCalls (handleConnectionAndSendBindDn env input) = 1
    ∧ handleConnectionAndSendBindDn env input =
        (runLoop env { boundDN := "", isSentBindDn := false } input).2
          ++ [Event.closeCall (runLoop env { boundDN := "", isSentBindDn := false } input).1.boundDN,
              Event.connClose] := by
  refine ⟨?_, ?_, rfl⟩
  · rcases ht with ht | ht
    · rw [processPacket_eq, if_pos hv, dispatch_tag_unbind env st p ht]
      exact ⟨rfl, rfl⟩
    · rw [processPacket_eq, if_pos hv, dispatch_tag_abandon env st p ht]
      exact ⟨rfl, rfl⟩
  · unfold handleConnectionAndSendBindDn
    dsimp only
    rw [countClose_append, runLoop_close_count]
    simp [countClose_cons, countClose_nil, Event.isClose]

/-- Claim C8, witness: an unbind on a fresh connection after one search. -/
theorem claim8_witness :
    validEnvelope (opEnvPkt 4 ApplicationUnbindRequest) = true
    ∧ (tagOf (opEnvPkt 4 ApplicationUnbindRequest) = ApplicationUnbindRequest
        ∨ tagOf (opEnvPkt 4 ApplicationUnbindRequest) = ApplicationAbandonRequest)
    ∧ (((processPacket envAllOk { boundDN := "", isSentBindDn := false }
          (opEnvPkt 4 ApplicationUnbindRequest)).2.1.all (fun e => !e.isSend) = true
        ∧ (processPacket envAllOk { boundDN := "", isSentBindDn := false }
            (opEnvPkt 4 ApplicationUnbindRequest)).2.2 = false)
      ∧ countCloseCalls (handleConnectionAndSendBindDn envAllOk
          [searchEnvPkt 1, opEnvPkt 4 ApplicationUnbindRequest]) = 1
      ∧ handleConnectionAndSendBindDn envAllOk [searchEnvPkt 1, opEnvPkt 4 ApplicationUnbindRequest] =
          (runLoop envAllOk { boundDN := "", isSentBindDn := false }
            [searchEnvPkt 1, opEnvPkt 4 ApplicationUnbindRequest]).2
            ++ [Event.closeCall (runLoop envAllOk { boundDN := "", isSentBindDn := false }
                  [searchEnvPkt 1, opEnvPkt 4 ApplicationUnbindRequest]).1.boundDN,
                Event.connClose]) :=
  ⟨by decide, Or.inl (by decide),
    claim8_unbind_abandon_close_once envAllOk [searchEnvPkt 1, opEnvPkt 4 ApplicationUnbindRequest]
      _ _ (by decide) (Or.inl (by decide))⟩

/-- Claim C9: the synthetic bind request carries message identifier 0,
protocol version 3, the configured service username and the configured service
credential, and the synthetic bind response is sent addressed with message
identifier 0. -/
theorem claim9_synthetic_request_shape (env : Env) (dn : String) :
    ((makeBindDnRequest env.bindDn env.bindPass).children.getD 0 defaultPacket).value
        = BerValue.uint 0
    ∧ ((synBindReq env).children.getD 0 defaultPacket).value = BerValue.int 3
    ∧ ((synBindReq env).children.getD 1 defaultPacket).value = BerValue.str env.bindDn
    ∧ ((synBindReq env).children.getD 2 defaultPacket).value = BerValue.str env.bindPass
    ∧ (sendBindDnRequest env dn).2.2 =
        [Event.bindChainCall true (synBindReq env),
         Event.sendAttempt (Response.bindResponse 0 (env.handleBind (synBindReq env)))] :=
  ⟨rfl, rfl, rfl, rfl, rfl⟩

/-- Claim C10: the bound identity is modified only by a bind — wire-received
or synthetic — whose handler chain returns the success result code: whenever a
processed message changes `boundDN`, its trace contains a bind chain call whose
request the bind chain answered with success. -/
theorem dispatch_state_id (env : Env) (st : ConnState) (p : Packet)
    (h1 : tagOf p ≠ ApplicationBindRequest) (h2 : tagOf p ≠ ApplicationSearchRequest) :
    (dispatch env st p).1 = st := by
  unfold tagOf at h1 h2
  unfold dispatch
  dsimp only
  rw [if_neg h1, if_neg h2]
  split_ifs <;> rfl

theorem claim10_boundDN_frame (env : Env) (st : ConnState) (p : Packet)
    (h : (processPacket env st p).1.boundDN ≠ st.boundDN) :
    ∃ b r, Event.bindChainCall b r ∈ (processPacket env st p).2.1
      ∧ env.handleBind r = LDAPResultSuccess := by
  rw [processPacket_eq] at h ⊢
  by_cases hv : validEnvelope p = true
  · rw [if_pos hv] at h ⊢
    by_cases h1 : tagOf p = ApplicationBindRequest
    · rw [dispatch_tag_bind env st p h1] at h ⊢
      exact processBind_dn_change env st p (reqOf p) (midOf p) h
    · by_cases h2 : tagOf p = ApplicationSearchRequest
      · rw [dispatch_tag_search env st p h2] at h ⊢
        exact processSearch_dn_change env st (reqOf p) (controlsOf p) (midOf p) h
      · exact absurd (congrArg ConnState.boundDN (dispatch_state_id env st p h1 h2)) h
  · rw [if_neg hv] at h
    exact absurd rfl h

/-- Claim C10, witness: a successful wire bind changes the bound identity and
its trace carries the successful bind chain call. -/
theorem claim10_witness :
    (processPacket envAllOk { boundDN := "", isSentBindDn := false }
      (bindEnvPkt 5 "u" "p")).1.boundDN ≠ ""
    ∧ ∃ b r, Event.bindChainCall b r ∈ (processPacket envAllOk
        { boundDN := "", isSentBindDn := false } (bindEnvPkt 5 "u" "p")).2.1
        ∧ envAllOk.handleBind r = LDAPResultSuccess :=
  ⟨by decide, claim10_boundDN_frame envAllOk _ _ (by decide)⟩
